import Mathlib

/-!
Verification of the attendance-session core of the Docere classroom app.

The module under study (`attendance.js`, with the role lookup from
`auth/auth.js`) manipulates three kinds of Firestore documents:
the singleton pointer document `attendance/current`, one per-date document
`attendance/<YYYY-MM-DD>`, and the per-user role documents `users/<uid>`.

The embedding below models:
  * each document as a record of its fields (write-only `timestamp`
    fields, which no operation ever reads, are omitted);
  * the remote store as a `Store` record holding the documents;
  * wall-clock time as a `Nat` of milliseconds (the unit of `Date.now()`),
    passed explicitly to each operation (`new Date()` / `Date.now()`);
  * the current calendar date string (`getCurrentDate()`) as an explicit
    `date` argument;
  * browser-session facts (`window.auth.currentUser`, `window.authModule`)
    as an `Env` record;
  * transient remote failures as explicit Boolean flags, one per remote
    call site, so that the `try`/`catch` structure of the source can be
    traced faithfully;
  * each operation returning, besides its result and the new store, the
    ordered list of remote calls it issued (`trace`) and the list of
    `alert` messages it showed (`alerts`); a thrown exception that escapes
    to the caller is recorded in the `raised`/result fields.
-/

namespace Docere

/-- Tags for the remote (Firestore) calls the operations can issue. -/
inductive RemoteTag where
  | roleLookup    -- `db.collection('users').doc(uid).get()` in getUserRole
  | currentGet    -- `attendance/current` get
  | currentSet    -- `attendance/current` set
  | currentUpdate -- `attendance/current` update
  | dateGet       -- `attendance/<date>` get
  | dateSet       -- `attendance/<date>` set (with merge)
  | dateUpdate    -- `attendance/<date>` update
deriving DecidableEq, Repr

/-- The `attendance/current` pointer document. -/
structure CurrentDoc where
  date : String
  status : Option String
  endTime : Option Nat
deriving DecidableEq, Repr

/-- An `attendance/<date>` per-date document. -/
structure DateDoc where
  status : Option String
  endTime : Option Nat
  students : Option (List String)
deriving DecidableEq, Repr

/-- A `users/<uid>` document; only the `role` field is read. -/
structure UserDoc where
  role : Option String
deriving DecidableEq, Repr

/-- The remote store: the pointer document, the per-date documents and the
user documents.  `none` means the document does not exist. -/
structure Store where
  current : Option CurrentDoc
  dates : String → Option DateDoc
  users : String → Option UserDoc

/-- Browser-side context of a call: whether `window.auth.currentUser` is
set, its uid, and whether `window.authModule` is loaded (the role check is
skipped when it is absent). -/
structure Env where
  loggedIn : Bool
  uid : String
  authModulePresent : Bool

/-- Point update of the per-date document table. -/
def setDate (f : String → Option DateDoc) (k : String) (v : Option DateDoc) :
    String → Option DateDoc :=
  fun k2 => if k2 = k then v else f k2

/-- `getUserRole` from `auth/auth.js`: reads `users/<uid>`; returns the
`role` field, `null` when the document or the field is missing, and —
through its `catch` — `null` when the remote read fails. -/
def getUserRole (st : Store) (uid : String) (fail : Bool) : Option String :=
  if fail then none
  else
    match st.users uid with
    | some u => u.role
    | none => none

/-- JS `String.prototype.trim`: strips whitespace from both ends of the
string, modeled structurally on the character list. -/
def strTrim (s : String) : String :=
  ⟨((s.data.dropWhile Char.isWhitespace).reverse.dropWhile Char.isWhitespace).reverse⟩

/-- The expiry test of the source:
`endTime && endTime.toDate() < new Date()`. -/
def expired (endTime : Option Nat) (now : Nat) : Bool :=
  match endTime with
  | some e => decide (e < now)
  | none => false

/-- Firestore `arrayUnion`: adds the element to the array field unless it
is already present; applied server-side to the stored value. -/
def arrayUnion (l : List String) (x : String) : List String :=
  if x ∈ l then l else l ++ [x]

/-- Remote-failure flags for the two `update` calls of `closeAttendance`. -/
structure CloseFails where
  current : Bool
  date : Bool
deriving DecidableEq, Repr

/-- Output of `closeAttendance`. -/
structure CloseOut where
  store : Store
  trace : List RemoteTag
  alerts : List String
  raised : Option String

/-- `closeAttendance` from `attendance.js`: `update`s `status: 'closed'`
on `attendance/current`, then on `attendance/<date>`.  Firestore `update`
throws when the document does not exist, and either call can fail
transiently; the surrounding `catch` only logs to the console, so nothing
is alerted or re-raised on any path. -/
def closeAttendance (st : Store) (date : String) (fails : CloseFails) :
    CloseOut :=
  match st.current, fails.current with
  | some c, false =>
    match st.dates date, fails.date with
    | some d, false =>
      { store :=
          { st with
            current := some { c with status := some "closed" }
            dates := setDate st.dates date (some { d with status := some "closed" }) }
        trace := [RemoteTag.currentUpdate, RemoteTag.dateUpdate]
        alerts := [], raised := none }
    | _, _ =>
      -- second update threw; caught, console.error only
      { store := { st with current := some { c with status := some "closed" } }
        trace := [RemoteTag.currentUpdate, RemoteTag.dateUpdate]
        alerts := [], raised := none }
  | _, _ =>
    -- first update threw; caught, console.error only
    { store := st, trace := [RemoteTag.currentUpdate], alerts := [], raised := none }

/-- Result of `openAttendance`.  The three failure constructors all
correspond to a thrown `Error` reaching the caller (`remoteError` via the
re-`throw` in the `catch` block). -/
inductive OpenResult where
  | notAuthenticated
  | unauthorized
  | remoteError
  | success
deriving DecidableEq, Repr

/-- Remote-failure flags for the calls of `openAttendance`. -/
structure OpenFails where
  role : Bool
  currentSet : Bool
  dateSet : Bool
deriving DecidableEq, Repr

/-- Output of `openAttendance`. -/
structure OpenOut where
  result : OpenResult
  store : Store
  trace : List RemoteTag
  alerts : List String

/-- `openAttendance` from `attendance.js`.  Checks authentication, then —
when `window.authModule` is loaded — the teacher role; computes
`endTime = Date.now() + durationSeconds * 1000`; `set`s the pointer
document (full overwrite) and then the per-date document with
`{status:'open', endTime, students: []}` and `merge: true` (every modeled
field is in the payload, so the per-date fields are all overwritten).
Remote failures are alerted and re-thrown. -/
def openAttendance (env : Env) (st : Store) (now : Nat) (date : String)
    (durationSeconds : Nat) (fails : OpenFails) : OpenOut :=
  if ¬ env.loggedIn then
    { result := OpenResult.notAuthenticated, store := st, trace := []
      alerts := ["You must be logged in to open attendance."] }
  else if env.authModulePresent ∧ getUserRole st env.uid fails.role ≠ some "teacher" then
    { result := OpenResult.unauthorized, store := st
      trace := if env.authModulePresent then [RemoteTag.roleLookup] else []
      alerts := ["Only teachers can open attendance."] }
  -- endTime = Date.now() + durationSeconds * 1000
  else if fails.currentSet then
    { result := OpenResult.remoteError, store := st
      trace := (if env.authModulePresent then [RemoteTag.roleLookup] else [])
        ++ [RemoteTag.currentSet]
      alerts := ["Failed to open attendance. Please try again."] }
  else if fails.dateSet then
    { result := OpenResult.remoteError
      store :=
        { st with current := some ⟨date, some "open", some (now + durationSeconds * 1000)⟩ }
      trace := (if env.authModulePresent then [RemoteTag.roleLookup] else [])
        ++ [RemoteTag.currentSet, RemoteTag.dateSet]
      alerts := ["Failed to open attendance. Please try again."] }
  else
    { result := OpenResult.success
      store :=
        { st with
          current := some ⟨date, some "open", some (now + durationSeconds * 1000)⟩
          dates := setDate st.dates date (some ⟨some "open", some (now + durationSeconds * 1000), some []⟩) }
      trace := (if env.authModulePresent then [RemoteTag.roleLookup] else [])
        ++ [RemoteTag.currentSet, RemoteTag.dateSet]
      alerts := [] }

/-- Result of `markStudentPresent`; every constructor but `success`
corresponds to a `return false` with the alert shown on that path. -/
inductive MarkResult where
  | notAuthenticated
  | wrongRole
  | emptyName
  | sessionNotOpen
  | sessionExpired
  | alreadyMarked
  | remoteError
  | success
deriving DecidableEq, Repr

/-- Remote-failure flags for the calls of `markStudentPresent` (the last
two are passed through to the embedded `closeAttendance`). -/
structure MarkFails where
  role : Bool
  currentGet : Bool
  dateGet : Bool
  dateUpdate : Bool
  closeCurrent : Bool
  closeDate : Bool
deriving DecidableEq, Repr

/-- Output of `markStudentPresent`. -/
structure MarkOut where
  result : MarkResult
  store : Store
  trace : List RemoteTag
  alerts : List String

/-- `markStudentPresent` from `attendance.js`: authentication check, role
check via `getUserRole` (skipped when `window.authModule` is absent),
trim + empty-name check, then inside `try`: read `attendance/current` and
fail unless it exists with `status === 'open'`; if its `endTime` has
passed wall-clock now, call `closeAttendance` and fail; read
`attendance/<date>` and fail unless it exists with `status === 'open'`;
fail if the trimmed name is already in `students`; otherwise `update` the
per-date document with `arrayUnion` of the trimmed name.  Any remote
failure inside `try` is caught, alerted generically, and `false` is
returned. -/
def markStudentPresent (env : Env) (st : Store) (now : Nat) (date : String)
    (studentName : String) (fails : MarkFails) : MarkOut :=
  if ¬ env.loggedIn then
    { result := MarkResult.notAuthenticated, store := st, trace := []
      alerts := ["You must be logged in to mark attendance."] }
  else if env.authModulePresent ∧ getUserRole st env.uid fails.role ≠ some "student" then
    { result := MarkResult.wrongRole, store := st
      trace := if env.authModulePresent then [RemoteTag.roleLookup] else []
      alerts := ["Only students can mark attendance."] }
  else if strTrim studentName = "" then
    { result := MarkResult.emptyName, store := st
      trace := if env.authModulePresent then [RemoteTag.roleLookup] else []
      alerts := ["Please enter your name"] }
  else if fails.currentGet then
    { result := MarkResult.remoteError, store := st
      trace := (if env.authModulePresent then [RemoteTag.roleLookup] else [])
        ++ [RemoteTag.currentGet]
      alerts := ["Failed to mark attendance. Please try again."] }
  else
    match st.current with
    | none =>
      { result := MarkResult.sessionNotOpen, store := st
        trace := (if env.authModulePresent then [RemoteTag.roleLookup] else [])
          ++ [RemoteTag.currentGet]
        alerts := ["Attendance is not open!"] }
    | some c =>
      if c.status ≠ some "open" then
        { result := MarkResult.sessionNotOpen, store := st
          trace := (if env.authModulePresent then [RemoteTag.roleLookup] else [])
            ++ [RemoteTag.currentGet]
          alerts := ["Attendance is not open!"] }
      else if expired c.endTime now then
        { result := MarkResult.sessionExpired
          store := (closeAttendance st date
            { current := fails.closeCurrent, date := fails.closeDate }).store
          trace := (if env.authModulePresent then [RemoteTag.roleLookup] else [])
            ++ [RemoteTag.currentGet]
            ++ (closeAttendance st date
              { current := fails.closeCurrent, date := fails.closeDate }).trace
          alerts := (closeAttendance st date
            { current := fails.closeCurrent, date := fails.closeDate }).alerts
            ++ ["Attendance time has expired!"] }
      else if fails.dateGet then
        { result := MarkResult.remoteError, store := st
          trace := (if env.authModulePresent then [RemoteTag.roleLookup] else [])
            ++ [RemoteTag.currentGet, RemoteTag.dateGet]
          alerts := ["Failed to mark attendance. Please try again."] }
      else
        match st.dates date with
        | none =>
          { result := MarkResult.sessionNotOpen, store := st
            trace := (if env.authModulePresent then [RemoteTag.roleLookup] else [])
              ++ [RemoteTag.currentGet, RemoteTag.dateGet]
            alerts := ["Attendance is not open!"] }
        | some dd =>
          if dd.status ≠ some "open" then
            { result := MarkResult.sessionNotOpen, store := st
              trace := (if env.authModulePresent then [RemoteTag.roleLookup] else [])
                ++ [RemoteTag.currentGet, RemoteTag.dateGet]
              alerts := ["Attendance is not open!"] }
          else if strTrim studentName ∈ dd.students.getD [] then
            { result := MarkResult.alreadyMarked, store := st
              trace := (if env.authModulePresent then [RemoteTag.roleLookup] else [])
                ++ [RemoteTag.currentGet, RemoteTag.dateGet]
              alerts := ["You have already marked your attendance!"] }
          else if fails.dateUpdate then
            { result := MarkResult.remoteError, store := st
              trace := (if env.authModulePresent then [RemoteTag.roleLookup] else [])
                ++ [RemoteTag.currentGet, RemoteTag.dateGet, RemoteTag.dateUpdate]
              alerts := ["Failed to mark attendance. Please try again."] }
          else
            { result := MarkResult.success
              store := { st with dates := setDate st.dates date (some { dd with students := some (arrayUnion (dd.students.getD []) (strTrim studentName)) }) }
              trace := (if env.authModulePresent then [RemoteTag.roleLookup] else [])
                ++ [RemoteTag.currentGet, RemoteTag.dateGet, RemoteTag.dateUpdate]
              alerts := ["Marked present!"] }

/-- The roster stored for a date: the `students` field, `[]` when the
document or the field is missing (`dateDocSnap.data().students || []`). -/
def rosterOf (st : Store) (date : String) : List String :=
  match st.dates date with
  | some d => d.students.getD []
  | none => []

/-!
Interleaving model for concurrent `markStudentPresent` calls.

Each of `n` in-flight calls (call `i` marking the trimmed name `names i`,
all authentication/role/validation checks already passed) is at a program
counter:

  0 — about to `get` `attendance/current` (the open + expiry checks);
  1 — about to `get` `attendance/<date>` (the open + membership checks);
  2 — about to `update` with `arrayUnion` of its name;
  3 — finished with `return true`;
  4 — finished with `return false`.

Each remote call is atomic at the store; a schedule is an arbitrary
interleaving of the calls' steps.  The `arrayUnion` at pc 2 is applied to
the stored value at update time, as Firestore applies it server-side, not
to the snapshot read at pc 1 — this is exactly what the lost-update claim
is about.
-/

/-- Shared state of the interleaving model: the store plus each call's
program counter. -/
structure ConcSys (n : Nat) where
  store : Store
  pcs : Fin n → Nat

/-- One atomic remote step of call `i`, mirroring the `try` block of
`markStudentPresent` (with no transient remote failures).  A finished
call does nothing. -/
def concStep {n : Nat} (names : Fin n → String) (now : Nat) (date : String)
    (s : ConcSys n) (i : Fin n) : ConcSys n :=
  match s.pcs i with
  | 0 =>
    match s.store.current with
    | some c =>
      if c.status = some "open" then
        if expired c.endTime now then
          { store := (closeAttendance s.store date ⟨false, false⟩).store
            pcs := Function.update s.pcs i 4 }
        else
          { s with pcs := Function.update s.pcs i 1 }
      else
        { s with pcs := Function.update s.pcs i 4 }
    | none => { s with pcs := Function.update s.pcs i 4 }
  | 1 =>
    match s.store.dates date with
    | some dd =>
      if dd.status = some "open" then
        if names i ∈ dd.students.getD [] then
          { s with pcs := Function.update s.pcs i 4 }
        else
          { s with pcs := Function.update s.pcs i 2 }
      else
        { s with pcs := Function.update s.pcs i 4 }
    | none => { s with pcs := Function.update s.pcs i 4 }
  | 2 =>
    match s.store.dates date with
    | some dd =>
      let dd2 : DateDoc :=
        { dd with students := some (arrayUnion (dd.students.getD []) (names i)) }
      { store := { s.store with dates := setDate s.store.dates date (some dd2) }
        pcs := Function.update s.pcs i 3 }
    | none => { s with pcs := Function.update s.pcs i 4 }
  | _ => s

/-- Run a schedule (a word of call indices) from a state. -/
def runSchedule {n : Nat} (names : Fin n → String) (now : Nat) (date : String)
    (sched : List (Fin n)) (s : ConcSys n) : ConcSys n :=
  sched.foldl (concStep names now date) s

/-! Concrete stores used by witnesses and counterexamples. -/

/-- A store with an open, unexpired session (endTime 1000 ms), an empty
roster for date `"2024-05-01"`, and role documents for a student `"s"`
and a teacher `"t"`. -/
def exStore : Store :=
  { current := some ⟨"2024-05-01", some "open", some 1000⟩
    dates := fun k => if k = "2024-05-01" then some ⟨some "open", some 1000, some []⟩ else none
    users := fun k =>
      if k = "s" then some ⟨some "student"⟩
      else if k = "t" then some ⟨some "teacher"⟩
      else none }

/-- A store whose pointer document says `open` with an unexpired
`endTime`, while the per-date document says `closed` (the transient
disagreement the spec itself tolerates between the two records). -/
def exStoreDisagree : Store :=
  { exStore with
    dates := fun k => if k = "2024-05-01" then some ⟨some "closed", some 1000, some []⟩ else none }

/-- The empty store: no documents at all. -/
def exStoreEmpty : Store :=
  { current := none, dates := fun _ => none, users := fun _ => none }

/-- A store with an open session whose roster already holds a mark
(used to observe that re-opening clears prior marks). -/
def exStorePrior : Store :=
  { exStore with
    dates := fun k => if k = "2024-05-01" then some ⟨some "open", some 1000, some ["Old"]⟩ else none }

/-- No-failure flag records. -/
def noMarkFails : MarkFails := ⟨false, false, false, false, false, false⟩

def noOpenFails : OpenFails := ⟨false, false, false⟩

def noCloseFails : CloseFails := ⟨false, false⟩

/-- Two distinct student names indexed by `Fin 2`, for concrete runs of
the interleaving model. -/
def exNames : Fin 2 → String := fun i => if i.val = 0 then "Alice" else "Bob"

end Docere

namespace Docere

/-! ### Helper lemmas -/

theorem Store.ext' {s1 s2 : Store} (h1 : s1.current = s2.current)
    (h2 : s1.dates = s2.dates) (h3 : s1.users = s2.users) : s1 = s2 := by
  cases s1; cases s2; simp_all

/-- `closeAttendance` never touches the `students` field of any date. -/
theorem closeAttendance_rosterOf (st : Store) (date : String) (fails : CloseFails)
    (d2 : String) : rosterOf (closeAttendance st date fails).store d2 = rosterOf st d2 := by
  cases hc : st.current <;> cases hfc : fails.current <;>
    simp only [closeAttendance, hc, hfc] <;>
    try rfl
  all_goals
    cases hd : st.dates date <;> cases hfd : fails.date <;>
      simp only [hd, hfd, rosterOf, setDate] <;> try rfl
  all_goals
    by_cases hdd : d2 = date <;> simp [hdd, hd]

theorem mem_arrayUnion_self (l : List String) (x : String) : x ∈ arrayUnion l x := by
  by_cases h : x ∈ l <;> simp [arrayUnion, h]

theorem arrayUnion_of_not_mem {l : List String} {x : String} (h : x ∉ l) :
    arrayUnion l x = l ++ [x] := by
  simp [arrayUnion, h]

end Docere

namespace Docere

/-! ### Claim C5 -/

/-- Claim C5: every successful `openSession(durationSeconds)` by an
authenticated teacher — including a re-open while a session is already
open — computes `endTime = now + durationSeconds` (milliseconds of wall
clock) and writes both the `current` pointer record and the per-date
record with `status='open'`, that `endTime`, and an empty students set,
clearing any prior marks for the date. -/
theorem openAttendance_resets_session
    (env : Env) (st : Store) (now : Nat) (date : String) (d : Nat) (fails : OpenFails)
    (hlog : env.loggedIn = true)
    (hmod : env.authModulePresent = true)
    (hrole : getUserRole st env.uid fails.role = some "teacher")
    (hcs : fails.currentSet = false) (hds : fails.dateSet = false) :
    openAttendance env st now date d fails =
      { result := OpenResult.success
        store :=
          { st with
            current := some ⟨date, some "open", some (now + d * 1000)⟩
            dates := setDate st.dates date (some ⟨some "open", some (now + d * 1000), some []⟩) }
        trace := [RemoteTag.roleLookup, RemoteTag.currentSet, RemoteTag.dateSet]
        alerts := [] } := by
  simp [openAttendance, hlog, hmod, hrole, hcs, hds]

/-- Witness for C5: a teacher re-opens over a store whose roster already
holds a mark; the per-date record is reset to an empty roster. -/
theorem openAttendance_resets_session_witness :
    openAttendance ⟨true, "t", true⟩ exStorePrior 500 "2024-05-01" 120 noOpenFails =
      { result := OpenResult.success
        store :=
          { exStorePrior with
            current := some ⟨"2024-05-01", some "open", some 120500⟩
            dates := setDate exStorePrior.dates "2024-05-01" (some ⟨some "open", some 120500, some []⟩) }
        trace := [RemoteTag.roleLookup, RemoteTag.currentSet, RemoteTag.dateSet]
        alerts := [] } :=
  openAttendance_resets_session ⟨true, "t", true⟩ exStorePrior 500 "2024-05-01" 120
    noOpenFails rfl rfl (by decide) rfl rfl

/-! ### Claim C7 -/

/-- Claim C7: a call to `openSession` by an authenticated identity whose
role lookup does not return `teacher` fails with `Unauthorized` and
leaves the stored attendance state completely unchanged — neither record
is written, not even partially. -/
theorem openAttendance_unauthorized_no_write
    (env : Env) (st : Store) (now : Nat) (date : String) (d : Nat) (fails : OpenFails)
    (hlog : env.loggedIn = true)
    (hmod : env.authModulePresent = true)
    (hrole : getUserRole st env.uid fails.role ≠ some "teacher") :
    openAttendance env st now date d fails =
      { result := OpenResult.unauthorized, store := st
        trace := [RemoteTag.roleLookup]
        alerts := ["Only teachers can open attendance."] } := by
  simp [openAttendance, hlog, hmod, hrole]

/-- Witness for C7: the student `"s"` tries to open attendance; the call
is rejected and the store is returned untouched. -/
theorem openAttendance_unauthorized_no_write_witness :
    openAttendance ⟨true, "s", true⟩ exStore 500 "2024-05-01" 120 noOpenFails =
      { result := OpenResult.unauthorized, store := exStore
        trace := [RemoteTag.roleLookup]
        alerts := ["Only teachers can open attendance."] } :=
  openAttendance_unauthorized_no_write ⟨true, "s", true⟩ exStore 500 "2024-05-01" 120
    noOpenFails rfl rfl (by decide)

end Docere

namespace Docere

/-! ### Claim C6 -/

/-- Counterexample to C6 as stated: on a starting state where the two
attendance documents do not exist, `closeAttendance` does not set
`status='closed'` on either record — Firestore `update` throws on a
missing document and the `catch` swallows the error, so the records stay
missing (status never becomes `closed`). -/
theorem closeAttendance_missing_doc_counterexample :
    (closeAttendance exStoreEmpty "2024-05-01" noCloseFails).store.current = none
    ∧ (closeAttendance exStoreEmpty "2024-05-01" noCloseFails).store.dates "2024-05-01" = none
    ∧ (closeAttendance exStoreEmpty "2024-05-01" noCloseFails).raised = none
    ∧ (closeAttendance exStoreEmpty "2024-05-01" noCloseFails).alerts = [] := by
  decide

/-- Claim C6, amended: on every starting state in which both the pointer
record and the per-date record exist (and the remote updates succeed),
`closeAttendance` sets `status='closed'` on both; calling it again right
after changes nothing; and in every starting state whatsoever —
already-closed, missing documents, or failing remote updates — it never
raises an error to its caller (and surfaces nothing). -/
theorem closeAttendance_idempotent_amended :
    (∀ (st : Store) (date : String) (c : CurrentDoc) (dd : DateDoc),
      st.current = some c → st.dates date = some dd →
      (closeAttendance st date noCloseFails).store.current
          = some { c with status := some "closed" }
      ∧ (closeAttendance st date noCloseFails).store.dates date
          = some { dd with status := some "closed" }
      ∧ (closeAttendance ((closeAttendance st date noCloseFails).store) date noCloseFails).store
          = (closeAttendance st date noCloseFails).store)
    ∧ (∀ (st : Store) (date : String) (fails : CloseFails),
      (closeAttendance st date fails).raised = none
      ∧ (closeAttendance st date fails).alerts = []) := by
  constructor
  · intro st date c dd hc hd
    have h1 : (closeAttendance st date noCloseFails).store.current
        = some { c with status := some "closed" } := by
      simp [closeAttendance, hc, hd, noCloseFails]
    have h2 : (closeAttendance st date noCloseFails).store.dates date
        = some { dd with status := some "closed" } := by
      simp [closeAttendance, hc, hd, noCloseFails, setDate]
    refine ⟨h1, h2, ?_⟩
    apply Store.ext'
    · simp [closeAttendance, hc, hd, noCloseFails, h1, h2, setDate]
    · funext k
      by_cases hk : k = date <;>
        simp [closeAttendance, hc, hd, noCloseFails, h1, h2, setDate, hk]
    · simp [closeAttendance, hc, hd, noCloseFails, h1, h2, setDate]
  · intro st date fails
    cases hc : st.current <;> cases hfc : fails.current <;>
      simp [closeAttendance, hc, hfc] <;>
      cases hd : st.dates date <;> cases hfd : fails.date <;> simp [hd, hfd]

/-- Witness for C6 (amended): closing the open example session twice sets
and keeps `status='closed'` on both records without error. -/
theorem closeAttendance_idempotent_amended_witness :
    (closeAttendance exStore "2024-05-01" noCloseFails).store.current
        = some ⟨"2024-05-01", some "closed", some 1000⟩
    ∧ (closeAttendance exStore "2024-05-01" noCloseFails).store.dates "2024-05-01"
        = some ⟨some "closed", some 1000, some []⟩
    ∧ (closeAttendance ((closeAttendance exStore "2024-05-01" noCloseFails).store) "2024-05-01" noCloseFails).store
        = (closeAttendance exStore "2024-05-01" noCloseFails).store :=
  closeAttendance_idempotent_amended.1 exStore "2024-05-01"
    ⟨"2024-05-01", some "open", some 1000⟩ ⟨some "open", some 1000, some []⟩
    (by decide) (by decide)

/-! ### Claim C10 -/

/-- Claim C10: when the remote role lookup fails, `getUserRole` returns
`null` instead of propagating the failure, so `openSession` fails
`Unauthorized` and `markPresent` returns the role failure — exactly as if
the user held no role, never as `RemoteUnavailable`; at the public
interface a remote failure during authorization is indistinguishable from
a missing role. -/
theorem getUserRole_error_as_missing_role :
    (∀ (st : Store) (uid : String), getUserRole st uid true = none)
    ∧ (∀ (env : Env) (st : Store) (now : Nat) (date : String) (d : Nat) (fails : OpenFails),
        env.loggedIn = true → env.authModulePresent = true → fails.role = true →
        (openAttendance env st now date d fails).result = OpenResult.unauthorized
        ∧ (openAttendance env st now date d fails).store = st)
    ∧ (∀ (env : Env) (st : Store) (now : Nat) (date : String) (name : String)
        (fails : MarkFails),
        env.loggedIn = true → env.authModulePresent = true → fails.role = true →
        (markStudentPresent env st now date name fails).result = MarkResult.wrongRole
        ∧ (markStudentPresent env st now date name fails).store = st)
    ∧ (∀ (st : Store) (uid : String),
        getUserRole st uid true
          = getUserRole { st with users := fun u => if u = uid then none else st.users u } uid
              false) := by
  refine ⟨fun st uid => by simp [getUserRole], ?_, ?_, fun st uid => by simp [getUserRole]⟩
  · intro env st now date d fails hlog hmod hrf
    constructor <;> simp [openAttendance, hlog, hmod, hrf, getUserRole]
  · intro env st now date name fails hlog hmod hrf
    constructor <;> simp [markStudentPresent, hlog, hmod, hrf, getUserRole]

/-- Witness for C10: with the role lookup failing, the teacher `"t"`
cannot open attendance and the student `"s"` cannot mark. -/
theorem getUserRole_error_as_missing_role_witness :
    (openAttendance ⟨true, "t", true⟩ exStore 500 "2024-05-01" 120 ⟨true, false, false⟩).result
        = OpenResult.unauthorized
    ∧ (markStudentPresent ⟨true, "s", true⟩ exStore 500 "2024-05-01" "Alice" ⟨true, false, false, false, false, false⟩).result
        = MarkResult.wrongRole :=
  ⟨(getUserRole_error_as_missing_role.2.1 ⟨true, "t", true⟩ exStore 500 "2024-05-01" 120
      ⟨true, false, false⟩ rfl rfl rfl).1,
   (getUserRole_error_as_missing_role.2.2.1 ⟨true, "s", true⟩ exStore 500 "2024-05-01" "Alice"
      ⟨true, false, false, false, false, false⟩ rfl rfl rfl).1⟩

end Docere

namespace Docere

/-- Exhaustive branch enumeration for `markStudentPresent`: exactly one of
the thirteen paths of the source is taken, each with its exact output. -/
theorem mark_enum (env : Env) (st : Store) (now : Nat) (date : String)
    (name : String) (fails : MarkFails) :
    (env.loggedIn = false
      ∧ markStudentPresent env st now date name fails
        = ⟨MarkResult.notAuthenticated, st, [], ["You must be logged in to mark attendance."]⟩)
    ∨ (env.loggedIn = true
      ∧ (env.authModulePresent = true ∧ getUserRole st env.uid fails.role ≠ some "student")
      ∧ markStudentPresent env st now date name fails
        = ⟨MarkResult.wrongRole, st, if env.authModulePresent = true then [RemoteTag.roleLookup] else [], ["Only students can mark attendance."]⟩)
    ∨ (env.loggedIn = true
      ∧ ¬(env.authModulePresent = true ∧ getUserRole st env.uid fails.role ≠ some "student")
      ∧ strTrim name = ""
      ∧ markStudentPresent env st now date name fails
        = ⟨MarkResult.emptyName, st, if env.authModulePresent = true then [RemoteTag.roleLookup] else [], ["Please enter your name"]⟩)
    ∨ (env.loggedIn = true
      ∧ ¬(env.authModulePresent = true ∧ getUserRole st env.uid fails.role ≠ some "student")
      ∧ strTrim name ≠ ""
      ∧ fails.currentGet = true
      ∧ markStudentPresent env st now date name fails
        = ⟨MarkResult.remoteError, st, (if env.authModulePresent = true then [RemoteTag.roleLookup] else []) ++ [RemoteTag.currentGet], ["Failed to mark attendance. Please try again."]⟩)
    ∨ (env.loggedIn = true
      ∧ ¬(env.authModulePresent = true ∧ getUserRole st env.uid fails.role ≠ some "student")
      ∧ strTrim name ≠ ""
      ∧ fails.currentGet = false
      ∧ st.current = none
      ∧ markStudentPresent env st now date name fails
        = ⟨MarkResult.sessionNotOpen, st, (if env.authModulePresent = true then [RemoteTag.roleLookup] else []) ++ [RemoteTag.currentGet], ["Attendance is not open!"]⟩)
    ∨ (∃ c, env.loggedIn = true
      ∧ ¬(env.authModulePresent = true ∧ getUserRole st env.uid fails.role ≠ some "student")
      ∧ strTrim name ≠ ""
      ∧ fails.currentGet = false
      ∧ st.current = some c
      ∧ c.status ≠ some "open"
      ∧ markStudentPresent env st now date name fails
        = ⟨MarkResult.sessionNotOpen, st, (if env.authModulePresent = true then [RemoteTag.roleLookup] else []) ++ [RemoteTag.currentGet], ["Attendance is not open!"]⟩)
    ∨ (∃ c, env.loggedIn = true
      ∧ ¬(env.authModulePresent = true ∧ getUserRole st env.uid fails.role ≠ some "student")
      ∧ strTrim name ≠ ""
      ∧ fails.currentGet = false
      ∧ st.current = some c
      ∧ c.status = some "open"
      ∧ expired c.endTime now = true
      ∧ markStudentPresent env st now date name fails
        = ⟨MarkResult.sessionExpired, (closeAttendance st date ⟨fails.closeCurrent, fails.closeDate⟩).store, (if env.authModulePresent = true then [RemoteTag.roleLookup] else []) ++ [RemoteTag.currentGet] ++ (closeAttendance st date ⟨fails.closeCurrent, fails.closeDate⟩).trace, (closeAttendance st date ⟨fails.closeCurrent, fails.closeDate⟩).alerts ++ ["Attendance time has expired!"]⟩)
    ∨ (∃ c, env.loggedIn = true
      ∧ ¬(env.authModulePresent = true ∧ getUserRole st env.uid fails.role ≠ some "student")
      ∧ strTrim name ≠ ""
      ∧ fails.currentGet = false
      ∧ st.current = some c
      ∧ c.status = some "open"
      ∧ expired c.endTime now = false
      ∧ fails.dateGet = true
      ∧ markStudentPresent env st now date name fails
        = ⟨MarkResult.remoteError, st, (if env.authModulePresent = true then [RemoteTag.roleLookup] else []) ++ [RemoteTag.currentGet, RemoteTag.dateGet], ["Failed to mark attendance. Please try again."]⟩)
    ∨ (∃ c, env.loggedIn = true
      ∧ ¬(env.authModulePresent = true ∧ getUserRole st env.uid fails.role ≠ some "student")
      ∧ strTrim name ≠ ""
      ∧ fails.currentGet = false
      ∧ st.current = some c
      ∧ c.status = some "open"
      ∧ expired c.endTime now = false
      ∧ fails.dateGet = false
      ∧ st.dates date = none
      ∧ markStudentPresent env st now date name fails
        = ⟨MarkResult.sessionNotOpen, st, (if env.authModulePresent = true then [RemoteTag.roleLookup] else []) ++ [RemoteTag.currentGet, RemoteTag.dateGet], ["Attendance is not open!"]⟩)
    ∨ (∃ c, ∃ dd, env.loggedIn = true
      ∧ ¬(env.authModulePresent = true ∧ getUserRole st env.uid fails.role ≠ some "student")
      ∧ strTrim name ≠ ""
      ∧ fails.currentGet = false
      ∧ st.current = some c
      ∧ c.status = some "open"
      ∧ expired c.endTime now = false
      ∧ fails.dateGet = false
      ∧ st.dates date = some dd
      ∧ dd.status ≠ some "open"
      ∧ markStudentPresent env st now date name fails
        = ⟨MarkResult.sessionNotOpen, st, (if env.authModulePresent = true then [RemoteTag.roleLookup] else []) ++ [RemoteTag.currentGet, RemoteTag.dateGet], ["Attendance is not open!"]⟩)
    ∨ (∃ c, ∃ dd, env.loggedIn = true
      ∧ ¬(env.authModulePresent = true ∧ getUserRole st env.uid fails.role ≠ some "student")
      ∧ strTrim name ≠ ""
      ∧ fails.currentGet = false
      ∧ st.current = some c
      ∧ c.status = some "open"
      ∧ expired c.endTime now = false
      ∧ fails.dateGet = false
      ∧ st.dates date = some dd
      ∧ dd.status = some "open"
      ∧ strTrim name ∈ dd.students.getD []
      ∧ markStudentPresent env st now date name fails
        = ⟨MarkResult.alreadyMarked, st, (if env.authModulePresent = true then [RemoteTag.roleLookup] else []) ++ [RemoteTag.currentGet, RemoteTag.dateGet], ["You have already marked your attendance!"]⟩)
    ∨ (∃ c, ∃ dd, env.loggedIn = true
      ∧ ¬(env.authModulePresent = true ∧ getUserRole st env.uid fails.role ≠ some "student")
      ∧ strTrim name ≠ ""
      ∧ fails.currentGet = false
      ∧ st.current = some c
      ∧ c.status = some "open"
      ∧ expired c.endTime now = false
      ∧ fails.dateGet = false
      ∧ st.dates date = some dd
      ∧ dd.status = some "open"
      ∧ strTrim name ∉ dd.students.getD []
      ∧ fails.dateUpdate = true
      ∧ markStudentPresent env st now date name fails
        = ⟨MarkResult.remoteError, st, (if env.authModulePresent = true then [RemoteTag.roleLookup] else []) ++ [RemoteTag.currentGet, RemoteTag.dateGet, RemoteTag.dateUpdate], ["Failed to mark attendance. Please try again."]⟩)
    ∨ (∃ c, ∃ dd, env.loggedIn = true
      ∧ ¬(env.authModulePresent = true ∧ getUserRole st env.uid fails.role ≠ some "student")
      ∧ strTrim name ≠ ""
      ∧ fails.currentGet = false
      ∧ st.current = some c
      ∧ c.status = some "open"
      ∧ expired c.endTime now = false
      ∧ fails.dateGet = false
      ∧ st.dates date = some dd
      ∧ dd.status = some "open"
      ∧ strTrim name ∉ dd.students.getD []
      ∧ fails.dateUpdate = false
      ∧ markStudentPresent env st now date name fails
        = ⟨MarkResult.success, { st with dates := setDate st.dates date (some { dd with students := some (arrayUnion (dd.students.getD []) (strTrim name)) }) }, (if env.authModulePresent = true then [RemoteTag.roleLookup] else []) ++ [RemoteTag.currentGet, RemoteTag.dateGet, RemoteTag.dateUpdate], ["Marked present!"]⟩) := by
  by_cases h1 : env.loggedIn
  rotate_left
  · exact Or.inl ⟨by simpa using h1, by simp [markStudentPresent, h1]⟩
  by_cases h2 : env.authModulePresent = true ∧ getUserRole st env.uid fails.role ≠ some "student"
  · exact Or.inr (Or.inl ⟨h1, h2, by simp [markStudentPresent, h1, h2]⟩)
  by_cases h3 : strTrim name = ""
  · exact Or.inr (Or.inr (Or.inl ⟨h1, h2, h3, by simp [markStudentPresent, h1, h2, h3]⟩))
  by_cases h4 : fails.currentGet
  · exact Or.inr (Or.inr (Or.inr (Or.inl ⟨h1, h2, h3, h4, by simp [markStudentPresent, h1, h2, h3, h4]⟩)))
  rcases hc : st.current with _ | c
  · refine Or.inr (Or.inr (Or.inr (Or.inr (Or.inl ⟨h1, h2, h3, by simpa using h4, rfl, ?_⟩))))
    simp [markStudentPresent, h1, h2, h3, h4, hc]
  by_cases h5 : c.status = some "open"
  rotate_left
  · refine Or.inr (Or.inr (Or.inr (Or.inr (Or.inr (Or.inl ⟨c, h1, h2, h3, by simpa using h4, rfl, h5, ?_⟩)))))
    simp [markStudentPresent, h1, h2, h3, h4, hc, h5]
  by_cases h6 : expired c.endTime now
  · refine Or.inr (Or.inr (Or.inr (Or.inr (Or.inr (Or.inr (Or.inl ⟨c, h1, h2, h3, by simpa using h4, rfl, h5, h6, ?_⟩))))))
    simp [markStudentPresent, h1, h2, h3, h4, hc, h5, h6]
  by_cases h7 : fails.dateGet
  · refine Or.inr (Or.inr (Or.inr (Or.inr (Or.inr (Or.inr (Or.inr (Or.inl ⟨c, h1, h2, h3, by simpa using h4, rfl, h5, by simpa using h6, h7, ?_⟩)))))))
    simp [markStudentPresent, h1, h2, h3, h4, hc, h5, h6, h7]
  rcases hd : st.dates date with _ | dd
  · refine Or.inr (Or.inr (Or.inr (Or.inr (Or.inr (Or.inr (Or.inr (Or.inr (Or.inl ⟨c, h1, h2, h3, by simpa using h4, rfl, h5, by simpa using h6, by simpa using h7, rfl, ?_⟩))))))))
    simp [markStudentPresent, h1, h2, h3, h4, hc, h5, h6, h7, hd]
  by_cases h8 : dd.status = some "open"
  rotate_left
  · refine Or.inr (Or.inr (Or.inr (Or.inr (Or.inr (Or.inr (Or.inr (Or.inr (Or.inr (Or.inl ⟨c, dd, h1, h2, h3, by simpa using h4, rfl, h5, by simpa using h6, by simpa using h7, rfl, h8, ?_⟩)))))))))
    simp [markStudentPresent, h1, h2, h3, h4, hc, h5, h6, h7, hd, h8]
  by_cases h9 : strTrim name ∈ dd.students.getD []
  · refine Or.inr (Or.inr (Or.inr (Or.inr (Or.inr (Or.inr (Or.inr (Or.inr (Or.inr (Or.inr (Or.inl ⟨c, dd, h1, h2, h3, by simpa using h4, rfl, h5, by simpa using h6, by simpa using h7, rfl, h8, h9, ?_⟩))))))))))
    simp [markStudentPresent, h1, h2, h3, h4, hc, h5, h6, h7, hd, h8, h9]
  by_cases h10 : fails.dateUpdate
  · refine Or.inr (Or.inr (Or.inr (Or.inr (Or.inr (Or.inr (Or.inr (Or.inr (Or.inr (Or.inr (Or.inr (Or.inl ⟨c, dd, h1, h2, h3, by simpa using h4, rfl, h5, by simpa using h6, by simpa using h7, rfl, h8, h9, h10, ?_⟩)))))))))))
    simp [markStudentPresent, h1, h2, h3, h4, hc, h5, h6, h7, hd, h8, h9, h10]
  · refine Or.inr (Or.inr (Or.inr (Or.inr (Or.inr (Or.inr (Or.inr (Or.inr (Or.inr (Or.inr (Or.inr (Or.inr ⟨c, dd, h1, h2, h3, by simpa using h4, rfl, h5, by simpa using h6, by simpa using h7, rfl, h8, h9, by simpa using h10, ?_⟩)))))))))))
    simp [markStudentPresent, h1, h2, h3, h4, hc, h5, h6, h7, hd, h8, h9, h10]

end Docere

namespace Docere

/-- Claim C1, amended: for an authenticated student with a non-empty
trimmed name, the checks of `markStudentPresent` run in order, each
failure short-circuiting: `SessionNotOpen` when the pointer record is
missing or not `open`; then `SessionExpired` — triggering `closeSession`
as a side effect, without marking — when `endTime` has passed wall-clock
now; then (the amendment) `SessionNotOpen` again when the per-date record
is missing or not `open`; then `AlreadyMarked` when the trimmed name is
already a member of the day's students set; otherwise the trimmed name is
appended via the `arrayUnion` additive write and the call succeeds. -/
theorem markStudentPresent_checks_order_amended
    (env : Env) (st : Store) (now : Nat) (date : String) (name : String) (fails : MarkFails)
    (hlog : env.loggedIn = true)
    (hmod : env.authModulePresent = true)
    (hrole : getUserRole st env.uid fails.role = some "student")
    (hname : strTrim name ≠ "")
    (hf2 : fails.currentGet = false) (hf3 : fails.dateGet = false)
    (hf4 : fails.dateUpdate = false) :
    ((st.current = none ∨ ∃ c, st.current = some c ∧ c.status ≠ some "open") →
      (markStudentPresent env st now date name fails).result = MarkResult.sessionNotOpen
      ∧ (markStudentPresent env st now date name fails).store = st)
    ∧ (∀ c, st.current = some c → c.status = some "open" → expired c.endTime now = true →
      (markStudentPresent env st now date name fails).result = MarkResult.sessionExpired
      ∧ (markStudentPresent env st now date name fails).store
          = (closeAttendance st date ⟨fails.closeCurrent, fails.closeDate⟩).store
      ∧ ∀ d2, rosterOf (markStudentPresent env st now date name fails).store d2 = rosterOf st d2)
    ∧ (∀ c, st.current = some c → c.status = some "open" → expired c.endTime now = false →
        (st.dates date = none ∨ ∃ dd, st.dates date = some dd ∧ dd.status ≠ some "open") →
      (markStudentPresent env st now date name fails).result = MarkResult.sessionNotOpen
      ∧ (markStudentPresent env st now date name fails).store = st)
    ∧ (∀ c dd, st.current = some c → c.status = some "open" → expired c.endTime now = false →
        st.dates date = some dd → dd.status = some "open" →
        strTrim name ∈ dd.students.getD [] →
      (markStudentPresent env st now date name fails).result = MarkResult.alreadyMarked
      ∧ (markStudentPresent env st now date name fails).store = st)
    ∧ (∀ c dd, st.current = some c → c.status = some "open" → expired c.endTime now = false →
        st.dates date = some dd → dd.status = some "open" →
        strTrim name ∉ dd.students.getD [] →
      (markStudentPresent env st now date name fails).result = MarkResult.success
      ∧ (markStudentPresent env st now date name fails).store.dates date
          = some { dd with students := some (dd.students.getD [] ++ [strTrim name]) }
      ∧ rosterOf (markStudentPresent env st now date name fails).store date
          = dd.students.getD [] ++ [strTrim name]
      ∧ (markStudentPresent env st now date name fails).store.current = st.current) := by
  refine ⟨?_, ?_, ?_, ?_, ?_⟩
  · rintro (hno | ⟨c, hc, hs⟩)
    · constructor <;> simp [markStudentPresent, hlog, hmod, hrole, hname, hf2, hno]
    · constructor <;> simp [markStudentPresent, hlog, hmod, hrole, hname, hf2, hc, hs]
  · intro c hc hs hexp
    refine ⟨?_, ?_, fun d2 => ?_⟩
    · simp [markStudentPresent, hlog, hmod, hrole, hname, hf2, hc, hs, hexp]
    · simp [markStudentPresent, hlog, hmod, hrole, hname, hf2, hc, hs, hexp]
    · have hst : (markStudentPresent env st now date name fails).store
          = (closeAttendance st date ⟨fails.closeCurrent, fails.closeDate⟩).store := by
        simp [markStudentPresent, hlog, hmod, hrole, hname, hf2, hc, hs, hexp]
      rw [hst]
      exact closeAttendance_rosterOf st date ⟨fails.closeCurrent, fails.closeDate⟩ d2
  · rintro c hc hs hexp (hno | ⟨dd, hd, hds⟩)
    · constructor <;>
        simp [markStudentPresent, hlog, hmod, hrole, hname, hf2, hc, hs, hexp, hf3, hno]
    · constructor <;>
        simp [markStudentPresent, hlog, hmod, hrole, hname, hf2, hc, hs, hexp, hf3, hd, hds]
  · intro c dd hc hs hexp hd hds hmem
    constructor <;>
      simp [markStudentPresent, hlog, hmod, hrole, hname, hf2, hc, hs, hexp, hf3, hd, hds, hmem]
  · intro c dd hc hs hexp hd hds hmem
    refine ⟨?_, ?_, ?_, ?_⟩ <;>
      simp [markStudentPresent, hlog, hmod, hrole, hname, hf2, hc, hs, hexp, hf3, hd, hds, hmem,
        hf4, setDate, rosterOf, arrayUnion]

end Docere

namespace Docere

/-- Counterexample to C1 as stated: a store whose pointer record is
`open` and unexpired while the per-date record says `closed` — the spec
itself allows the two records to disagree transiently.  Every check the
claim lists passes (status open, not expired, name not a member), yet the
call does not succeed: it fails `SessionNotOpen` on the per-date status
check the claim omits. -/
theorem markStudentPresent_checks_order_counterexample :
    exStoreDisagree.current = some ⟨"2024-05-01", some "open", some 1000⟩
    ∧ expired (some 1000) 500 = false
    ∧ getUserRole exStoreDisagree "s" false = some "student"
    ∧ strTrim "Alice" = "Alice"
    ∧ "Alice" ∉ rosterOf exStoreDisagree "2024-05-01"
    ∧ (markStudentPresent ⟨true, "s", true⟩ exStoreDisagree 500 "2024-05-01" "Alice" noMarkFails).result
        = MarkResult.sessionNotOpen
    ∧ (markStudentPresent ⟨true, "s", true⟩ exStoreDisagree 500 "2024-05-01" "Alice" noMarkFails).result
        ≠ MarkResult.success
    ∧ rosterOf (markStudentPresent ⟨true, "s", true⟩ exStoreDisagree 500 "2024-05-01" "Alice" noMarkFails).store "2024-05-01"
        = [] := by
  decide

/-- Witness for C1 (amended): on an open unexpired session, marking with
the name `" Alice "` succeeds and appends the trimmed `"Alice"`. -/
theorem markStudentPresent_checks_order_amended_witness :
    (markStudentPresent ⟨true, "s", true⟩ exStore 500 "2024-05-01" " Alice " noMarkFails).result
        = MarkResult.success
    ∧ rosterOf (markStudentPresent ⟨true, "s", true⟩ exStore 500 "2024-05-01" " Alice " noMarkFails).store "2024-05-01"
        = ["Alice"] := by
  have h := (markStudentPresent_checks_order_amended ⟨true, "s", true⟩ exStore 500 "2024-05-01"
    " Alice " noMarkFails rfl rfl (by decide) (by decide) rfl rfl rfl).2.2.2.2
    ⟨"2024-05-01", some "open", some 1000⟩ ⟨some "open", some 1000, some []⟩
    rfl rfl (by decide) rfl rfl (by decide)
  refine ⟨h.1, ?_⟩
  rw [h.2.2.1]
  decide

end Docere

namespace Docere

/-- Claim C3: if wall-clock time has advanced past the session's
`endTime` before `markPresent` is called, the call fails `SessionExpired`,
the student is not added, and the stored status of both records becomes
`closed` as a side effect; moreover no `markPresent` call whatsoever —
any caller, any failure flags, any time past `endTime` — ever returns
success or changes any roster of the store. -/
theorem markStudentPresent_expired_closes
    (env : Env) (st : Store) (now : Nat) (date : String) (name : String) (fails : MarkFails)
    (c : CurrentDoc) (dd : DateDoc) (e : Nat)
    (hlog : env.loggedIn = true) (hmod : env.authModulePresent = true)
    (hrole : getUserRole st env.uid fails.role = some "student")
    (hname : strTrim name ≠ "")
    (hc : st.current = some c) (hs : c.status = some "open")
    (he : c.endTime = some e) (hlt : e < now)
    (hd : st.dates date = some dd)
    (hf2 : fails.currentGet = false)
    (hc1 : fails.closeCurrent = false) (hc2 : fails.closeDate = false) :
    (markStudentPresent env st now date name fails).result = MarkResult.sessionExpired
    ∧ (markStudentPresent env st now date name fails).store.current
        = some { c with status := some "closed" }
    ∧ (markStudentPresent env st now date name fails).store.dates date
        = some { dd with status := some "closed" }
    ∧ (∀ d2, rosterOf (markStudentPresent env st now date name fails).store d2 = rosterOf st d2)
    ∧ (∀ (env2 : Env) (name2 : String) (fails2 : MarkFails) (now2 : Nat), e < now2 →
        (markStudentPresent env2 st now2 date name2 fails2).result ≠ MarkResult.success
        ∧ ∀ d2, rosterOf (markStudentPresent env2 st now2 date name2 fails2).store d2
            = rosterOf st d2) := by
  have hexp : expired c.endTime now = true := by simp [expired, he, hlt]
  have hst : (markStudentPresent env st now date name fails).store
      = (closeAttendance st date ⟨fails.closeCurrent, fails.closeDate⟩).store := by
    simp [markStudentPresent, hlog, hmod, hrole, hname, hf2, hc, hs, hexp]
  refine ⟨?_, ?_, ?_, fun d2 => ?_, ?_⟩
  · simp [markStudentPresent, hlog, hmod, hrole, hname, hf2, hc, hs, hexp]
  · rw [hst]
    simp [closeAttendance, hc, hd, hc1, hc2]
  · rw [hst]
    simp [closeAttendance, hc, hd, hc1, hc2, setDate]
  · rw [hst]
    exact closeAttendance_rosterOf st date ⟨fails.closeCurrent, fails.closeDate⟩ d2
  · intro env2 name2 fails2 now2 hlt2
    rcases mark_enum env2 st now2 date name2 fails2 with
      ⟨hA, he2⟩ | ⟨hA, hB, he2⟩ | ⟨hA, hB, hC, he2⟩ | ⟨hA, hB, hC, hD, he2⟩ |
      ⟨hA, hB, hC, hD, hE, he2⟩ | ⟨c2, hA, hB, hC, hD, hE, hF, he2⟩ |
      ⟨c2, hA, hB, hC, hD, hE, hF, hG, he2⟩ | ⟨c2, hA, hB, hC, hD, hE, hF, hG, hH, he2⟩ |
      ⟨c2, hA, hB, hC, hD, hE, hF, hG, hH, hI, he2⟩ |
      ⟨c2, dd2, hA, hB, hC, hD, hE, hF, hG, hH, hI, hJ, he2⟩ |
      ⟨c2, dd2, hA, hB, hC, hD, hE, hF, hG, hH, hI, hJ, hK, he2⟩ |
      ⟨c2, dd2, hA, hB, hC, hD, hE, hF, hG, hH, hI, hJ, hK, hL, he2⟩ |
      ⟨c2, dd2, hA, hB, hC, hD, hE, hF, hG, hH, hI, hJ, hK, hL, he2⟩
    · rw [he2]; exact ⟨by simp, fun d2 => rfl⟩
    · rw [he2]; exact ⟨by simp, fun d2 => rfl⟩
    · rw [he2]; exact ⟨by simp, fun d2 => rfl⟩
    · rw [he2]; exact ⟨by simp, fun d2 => rfl⟩
    · rw [he2]; exact ⟨by simp, fun d2 => rfl⟩
    · rw [he2]; exact ⟨by simp, fun d2 => rfl⟩
    · rw [he2]
      exact ⟨by simp, fun d2 =>
        closeAttendance_rosterOf st date ⟨fails2.closeCurrent, fails2.closeDate⟩ d2⟩
    · rw [he2]; exact ⟨by simp, fun d2 => rfl⟩
    · rw [he2]; exact ⟨by simp, fun d2 => rfl⟩
    · rw [he2]; exact ⟨by simp, fun d2 => rfl⟩
    · rw [he2]; exact ⟨by simp, fun d2 => rfl⟩
    · rw [he2]; exact ⟨by simp, fun d2 => rfl⟩
    · -- the success branch is impossible: the session is expired at now2
      rw [hc] at hE
      injection hE with hE'
      subst hE'
      rw [he] at hG
      simp [expired, hlt2] at hG

end Docere

namespace Docere

/-- Helper: the `AlreadyMarked` path of `markStudentPresent`,
characterized over an arbitrary store. -/
theorem mark_eq_alreadyMarked (env : Env) (st2 : Store) (now : Nat) (date : String)
    (name : String) (fails : MarkFails) (c : CurrentDoc) (dd : DateDoc)
    (hA : env.loggedIn = true)
    (hB : ¬(env.authModulePresent = true ∧ getUserRole st2 env.uid fails.role ≠ some "student"))
    (hC : strTrim name ≠ "") (hD : fails.currentGet = false)
    (hE : st2.current = some c) (hF : c.status = some "open")
    (hG : expired c.endTime now = false) (hH : fails.dateGet = false)
    (hI : st2.dates date = some dd) (hJ : dd.status = some "open")
    (hM : strTrim name ∈ dd.students.getD []) :
    markStudentPresent env st2 now date name fails
      = ⟨MarkResult.alreadyMarked, st2,
         (if env.authModulePresent = true then [RemoteTag.roleLookup] else [])
           ++ [RemoteTag.currentGet, RemoteTag.dateGet],
         ["You have already marked your attendance!"]⟩ := by
  simp [markStudentPresent, hA, hB, hC, hD, hE, hF, hG, hH, hI, hJ, hM]

/-- Claim C4: from any session state in which a first `markPresent`
call with a given name succeeded, a second call with the same trimmed
name (exact match) fails `AlreadyMarked`, leaves the store unchanged, and
the day's roster holds exactly one membership of that name after either
call — retry never double-inserts. -/
theorem markStudentPresent_retry_already_marked
    (env : Env) (st : Store) (now : Nat) (date : String) (name : String) (fails : MarkFails)
    (h : (markStudentPresent env st now date name fails).result = MarkResult.success) :
    (markStudentPresent env ((markStudentPresent env st now date name fails).store)
        now date name fails).result = MarkResult.alreadyMarked
    ∧ (markStudentPresent env ((markStudentPresent env st now date name fails).store)
        now date name fails).store = (markStudentPresent env st now date name fails).store
    ∧ (rosterOf ((markStudentPresent env st now date name fails).store) date).count (strTrim name) = 1
    ∧ (rosterOf ((markStudentPresent env ((markStudentPresent env st now date name fails).store)
        now date name fails).store) date).count (strTrim name) = 1 := by
  rcases mark_enum env st now date name fails with
    ⟨hA, he2⟩ | ⟨hA, hB, he2⟩ | ⟨hA, hB, hC, he2⟩ | ⟨hA, hB, hC, hD, he2⟩ |
    ⟨hA, hB, hC, hD, hE, he2⟩ | ⟨c2, hA, hB, hC, hD, hE, hF, he2⟩ |
    ⟨c2, hA, hB, hC, hD, hE, hF, hG, he2⟩ | ⟨c2, hA, hB, hC, hD, hE, hF, hG, hH, he2⟩ |
    ⟨c2, hA, hB, hC, hD, hE, hF, hG, hH, hI, he2⟩ |
    ⟨c2, dd2, hA, hB, hC, hD, hE, hF, hG, hH, hI, hJ, he2⟩ |
    ⟨c2, dd2, hA, hB, hC, hD, hE, hF, hG, hH, hI, hJ, hK, he2⟩ |
    ⟨c2, dd2, hA, hB, hC, hD, hE, hF, hG, hH, hI, hJ, hK, hL, he2⟩ |
    ⟨c2, dd2, hA, hB, hC, hD, hE, hF, hG, hH, hI, hJ, hK, hL, he2⟩
  any_goals rw [he2] at h; simp at h
  -- success branch
  rw [he2]
  have hmark2 := mark_eq_alreadyMarked env
    ({ st with dates := setDate st.dates date (some { dd2 with students := some (arrayUnion (dd2.students.getD []) (strTrim name)) }) } : Store)
    now date name fails c2
    ({ dd2 with students := some (arrayUnion (dd2.students.getD []) (strTrim name)) })
    hA hB hC hD hE hF hG hH (by simp [setDate]) hJ (mem_arrayUnion_self _ _)
  have hcount : (rosterOf ({ st with dates := setDate st.dates date (some { dd2 with students := some (arrayUnion (dd2.students.getD []) (strTrim name)) }) } : Store) date).count (strTrim name) = 1 := by
    simp [rosterOf, setDate, arrayUnion_of_not_mem hK, List.count_append,
      List.count_eq_zero_of_not_mem hK]
  exact ⟨by rw [hmark2], by rw [hmark2], hcount, by rw [hmark2]; exact hcount⟩

end Docere

namespace Docere

/-- Counterexample to C8 as stated: a remote-store failure during an
explicitly (teacher-)invoked `closeAttendance` is silently swallowed: no
alert is shown and nothing is raised to the caller, although the failure
was real — the session's records still say `open` afterwards. -/
theorem closeAttendance_silent_failure_counterexample :
    (closeAttendance exStore "2024-05-01" ⟨true, false⟩).alerts = []
    ∧ (closeAttendance exStore "2024-05-01" ⟨true, false⟩).raised = none
    ∧ (closeAttendance exStore "2024-05-01" ⟨true, false⟩).store.current
        = some ⟨"2024-05-01", some "open", some 1000⟩
    ∧ (closeAttendance exStore "2024-05-01" ⟨true, false⟩).store.dates "2024-05-01"
        = some ⟨some "open", some 1000, some []⟩ := by
  decide

/-- Claim C8, amended: every call to `markPresent` surfaces an alert (in
particular every failure is surfaced), and every failing `openSession`
call surfaces an alert (besides re-throwing); but `closeSession` never
surfaces anything to its initiating actor — its failures are silent
whether it was invoked explicitly by a teacher or as background expiry
housekeeping. -/
theorem failures_surfaced_amended :
    (∀ (env : Env) (st : Store) (now : Nat) (date : String) (name : String) (fails : MarkFails),
      (markStudentPresent env st now date name fails).alerts ≠ [])
    ∧ (∀ (env : Env) (st : Store) (now : Nat) (date : String) (d : Nat) (fails : OpenFails),
      (openAttendance env st now date d fails).result ≠ OpenResult.success →
      (openAttendance env st now date d fails).alerts ≠ [])
    ∧ (∀ (st : Store) (date : String) (fails : CloseFails),
      (closeAttendance st date fails).alerts = []
      ∧ (closeAttendance st date fails).raised = none) := by
  refine ⟨?_, ?_, ?_⟩
  · intro env st now date name fails
    rcases mark_enum env st now date name fails with
      ⟨hA, he2⟩ | ⟨hA, hB, he2⟩ | ⟨hA, hB, hC, he2⟩ | ⟨hA, hB, hC, hD, he2⟩ |
      ⟨hA, hB, hC, hD, hE, he2⟩ | ⟨c2, hA, hB, hC, hD, hE, hF, he2⟩ |
      ⟨c2, hA, hB, hC, hD, hE, hF, hG, he2⟩ | ⟨c2, hA, hB, hC, hD, hE, hF, hG, hH, he2⟩ |
      ⟨c2, hA, hB, hC, hD, hE, hF, hG, hH, hI, he2⟩ |
      ⟨c2, dd2, hA, hB, hC, hD, hE, hF, hG, hH, hI, hJ, he2⟩ |
      ⟨c2, dd2, hA, hB, hC, hD, hE, hF, hG, hH, hI, hJ, hK, he2⟩ |
      ⟨c2, dd2, hA, hB, hC, hD, hE, hF, hG, hH, hI, hJ, hK, hL, he2⟩ |
      ⟨c2, dd2, hA, hB, hC, hD, hE, hF, hG, hH, hI, hJ, hK, hL, he2⟩ <;>
      rw [he2] <;> simp
  · intro env st now date d fails h
    by_cases h1 : env.loggedIn
    rotate_left
    · simp [openAttendance, h1]
    by_cases h2 : env.authModulePresent = true ∧ getUserRole st env.uid fails.role ≠ some "teacher"
    · simp [openAttendance, h1, h2]
    by_cases h3 : fails.currentSet
    · simp [openAttendance, h1, h2, h3]
    by_cases h4 : fails.dateSet
    · simp [openAttendance, h1, h2, h3, h4]
    · exact absurd (by simp [openAttendance, h1, h2, h3, h4]) h
  · intro st date fails
    cases hc : st.current <;> cases hfc : fails.current <;>
      simp [closeAttendance, hc, hfc] <;>
      cases hd : st.dates date <;> cases hfd : fails.date <;> simp [hd, hfd]

/-- Witness for C8 (amended), at concrete failing calls. -/
theorem failures_surfaced_amended_witness :
    (markStudentPresent ⟨false, "s", true⟩ exStore 500 "2024-05-01" "Alice" noMarkFails).alerts ≠ []
    ∧ (openAttendance ⟨false, "t", true⟩ exStore 500 "2024-05-01" 120 noOpenFails).alerts ≠ []
    ∧ (closeAttendance exStore "2024-05-01" noCloseFails).alerts = [] :=
  ⟨failures_surfaced_amended.1 ⟨false, "s", true⟩ exStore 500 "2024-05-01" "Alice" noMarkFails,
   failures_surfaced_amended.2.1 ⟨false, "t", true⟩ exStore 500 "2024-05-01" 120 noOpenFails
     (by decide),
   (failures_surfaced_amended.2.2 exStore "2024-05-01" noCloseFails).1⟩

/-- Counterexample to C9 as stated: a `markPresent` call by an
authenticated student with an empty trimmed name does contact the remote
store — the role check performs the `users/<uid>` lookup before the
empty-name validation runs. -/
theorem markStudentPresent_empty_name_remote_counterexample :
    (markStudentPresent ⟨true, "s", true⟩ exStore 500 "2024-05-01" "   " noMarkFails).result
        = MarkResult.emptyName
    ∧ (markStudentPresent ⟨true, "s", true⟩ exStore 500 "2024-05-01" "   " noMarkFails).trace
        = [RemoteTag.roleLookup]
    ∧ (markStudentPresent ⟨true, "s", true⟩ exStore 500 "2024-05-01" "   " noMarkFails).trace
        ≠ [] := by
  decide

/-- Claim C9, amended: authorization and validation failures of
`markPresent` (unauthenticated, wrong role, empty trimmed name) are
reported before any remote call to the attendance store — at most the
role lookup of the users store has been issued, the attendance documents
are never contacted, and the store is unchanged; an unauthenticated call
makes no remote call at all. -/
theorem markStudentPresent_fail_fast_amended
    (env : Env) (st : Store) (now : Nat) (date : String) (name : String) (fails : MarkFails)
    (h : (markStudentPresent env st now date name fails).result = MarkResult.notAuthenticated
      ∨ (markStudentPresent env st now date name fails).result = MarkResult.wrongRole
      ∨ (markStudentPresent env st now date name fails).result = MarkResult.emptyName) :
    (∀ t ∈ (markStudentPresent env st now date name fails).trace, t = RemoteTag.roleLookup)
    ∧ (markStudentPresent env st now date name fails).store = st
    ∧ ((markStudentPresent env st now date name fails).result = MarkResult.notAuthenticated →
        (markStudentPresent env st now date name fails).trace = []) := by
  rcases mark_enum env st now date name fails with
    ⟨hA, he2⟩ | ⟨hA, hB, he2⟩ | ⟨hA, hB, hC, he2⟩ | ⟨hA, hB, hC, hD, he2⟩ |
    ⟨hA, hB, hC, hD, hE, he2⟩ | ⟨c2, hA, hB, hC, hD, hE, hF, he2⟩ |
    ⟨c2, hA, hB, hC, hD, hE, hF, hG, he2⟩ | ⟨c2, hA, hB, hC, hD, hE, hF, hG, hH, he2⟩ |
    ⟨c2, hA, hB, hC, hD, hE, hF, hG, hH, hI, he2⟩ |
    ⟨c2, dd2, hA, hB, hC, hD, hE, hF, hG, hH, hI, hJ, he2⟩ |
    ⟨c2, dd2, hA, hB, hC, hD, hE, hF, hG, hH, hI, hJ, hK, he2⟩ |
    ⟨c2, dd2, hA, hB, hC, hD, hE, hF, hG, hH, hI, hJ, hK, hL, he2⟩ |
    ⟨c2, dd2, hA, hB, hC, hD, hE, hF, hG, hH, hI, hJ, hK, hL, he2⟩ <;>
    rw [he2] at h ⊢
  · refine ⟨?_, rfl, ?_⟩ <;> simp
  · refine ⟨?_, rfl, ?_⟩ <;> by_cases hm : env.authModulePresent <;> simp [hm]
  · refine ⟨?_, rfl, ?_⟩ <;> by_cases hm : env.authModulePresent <;> simp [hm]
  all_goals simp at h

/-- Witness for C9 (amended): an empty-name call issues at most the
role lookup and leaves the store untouched. -/
theorem markStudentPresent_fail_fast_amended_witness :
    (∀ t ∈ (markStudentPresent ⟨true, "s", true⟩ exStore 500 "2024-05-01" "   " noMarkFails).trace,
      t = RemoteTag.roleLookup)
    ∧ (markStudentPresent ⟨true, "s", true⟩ exStore 500 "2024-05-01" "   " noMarkFails).store
        = exStore :=
  have h := markStudentPresent_fail_fast_amended ⟨true, "s", true⟩ exStore 500 "2024-05-01"
    "   " noMarkFails (Or.inr (Or.inr (by decide)))
  ⟨h.1, h.2.1⟩

end Docere

namespace Docere

/-- Witness for C3: at `now = 2000` ms, past the example session's
`endTime = 1000`, marking fails with `SessionExpired` and the pointer
record's status becomes `closed`. -/
theorem markStudentPresent_expired_closes_witness :
    (markStudentPresent ⟨true, "s", true⟩ exStore 2000 "2024-05-01" "Alice" noMarkFails).result
        = MarkResult.sessionExpired
    ∧ (markStudentPresent ⟨true, "s", true⟩ exStore 2000 "2024-05-01" "Alice" noMarkFails).store.current
        = some ⟨"2024-05-01", some "closed", some 1000⟩ :=
  have h := markStudentPresent_expired_closes ⟨true, "s", true⟩ exStore 2000 "2024-05-01"
    "Alice" noMarkFails ⟨"2024-05-01", some "open", some 1000⟩ ⟨some "open", some 1000, some []⟩
    1000 rfl rfl (by decide) (by decide) rfl rfl rfl (by decide) rfl rfl rfl rfl
  ⟨h.1, h.2.1⟩

/-- Witness for C4: after Alice marks successfully on the example store,
her retry reports `AlreadyMarked` and the roster holds her name once. -/
theorem markStudentPresent_retry_already_marked_witness :
    (markStudentPresent ⟨true, "s", true⟩
        ((markStudentPresent ⟨true, "s", true⟩ exStore 500 "2024-05-01" "Alice" noMarkFails).store)
        500 "2024-05-01" "Alice" noMarkFails).result = MarkResult.alreadyMarked
    ∧ (rosterOf ((markStudentPresent ⟨true, "s", true⟩ exStore 500 "2024-05-01" "Alice" noMarkFails).store)
        "2024-05-01").count (strTrim "Alice") = 1 :=
  have h := markStudentPresent_retry_already_marked ⟨true, "s", true⟩ exStore 500 "2024-05-01"
    "Alice" noMarkFails (by decide)
  ⟨h.1, h.2.2.1⟩

end Docere

namespace Docere

/-- One step of the interleaving model preserves the lost-update
invariant: the pointer document is untouched, the per-date document keeps
status `open` and its roster is exactly the set of names of finished
calls, without duplicates, and no call has failed. -/
theorem concStep_inv {n : Nat} (names : Fin n → String) (now : Nat) (date : String)
    (c0 : CurrentDoc) (e0 : Option Nat)
    (hinj : Function.Injective names)
    (hstat : c0.status = some "open") (hexp : expired c0.endTime now = false)
    (s : ConcSys n) (i : Fin n)
    (hcur : s.store.current = some c0)
    (l : List String) (hd : s.store.dates date = some ⟨some "open", e0, some l⟩)
    (hnd : l.Nodup) (hiff : ∀ x, x ∈ l ↔ ∃ j, s.pcs j = 3 ∧ names j = x)
    (hle : ∀ j, s.pcs j ≤ 3) :
    (concStep names now date s i).store.current = some c0
    ∧ (∃ l2, (concStep names now date s i).store.dates date = some ⟨some "open", e0, some l2⟩
      ∧ l2.Nodup ∧ (∀ x, x ∈ l2 ↔ ∃ j, (concStep names now date s i).pcs j = 3 ∧ names j = x))
    ∧ (∀ j, (concStep names now date s i).pcs j ≤ 3) := by
  have hnotmem : ∀ (hpc : s.pcs i ≠ 3), names i ∉ l := by
    intro hpc hmem
    obtain ⟨j, hj3, hjx⟩ := (hiff (names i)).1 hmem
    exact hpc (hinj hjx ▸ hj3)
  rcases hpc : s.pcs i with _ | _ | _ | k
  · -- pc 0: the expiry/open check on the pointer document passes
    refine ⟨by simp [concStep, hpc, hcur, hstat, hexp], ⟨l, ?_, hnd, ?_⟩, ?_⟩
    · simp [concStep, hpc, hcur, hstat, hexp, hd]
    · intro x
      rw [hiff x]
      constructor
      · rintro ⟨j, hj3, hjx⟩
        have hji : j ≠ i := by
          rintro rfl
          rw [hpc] at hj3
          exact absurd hj3 (by decide)
        refine ⟨j, ?_, hjx⟩
        simp [concStep, hpc, hcur, hstat, hexp, Function.update_noteq hji, hj3]
      · rintro ⟨j, hj3, hjx⟩
        by_cases hji : j = i
        · subst hji
          simp [concStep, hpc, hcur, hstat, hexp, Function.update_same] at hj3
        · simp [concStep, hpc, hcur, hstat, hexp, Function.update_noteq hji] at hj3
          exact ⟨j, hj3, hjx⟩
    · intro j
      by_cases hji : j = i
      · subst hji
        simp [concStep, hpc, hcur, hstat, hexp, Function.update_same]
      · simp [concStep, hpc, hcur, hstat, hexp, Function.update_noteq hji]
        exact hle j
  · -- pc 1: the open/membership check on the per-date document passes
    have hni : names i ∉ l := hnotmem (by rw [hpc]; decide)
    refine ⟨by simp [concStep, hpc, hd, hni, hcur], ⟨l, ?_, hnd, ?_⟩, ?_⟩
    · simp [concStep, hpc, hd, hni]
    · intro x
      rw [hiff x]
      constructor
      · rintro ⟨j, hj3, hjx⟩
        have hji : j ≠ i := by
          rintro rfl
          rw [hpc] at hj3
          exact absurd hj3 (by decide)
        refine ⟨j, ?_, hjx⟩
        simp [concStep, hpc, hd, hni, Function.update_noteq hji, hj3]
      · rintro ⟨j, hj3, hjx⟩
        by_cases hji : j = i
        · subst hji
          simp [concStep, hpc, hd, hni, Function.update_same] at hj3
        · simp [concStep, hpc, hd, hni, Function.update_noteq hji] at hj3
          exact ⟨j, hj3, hjx⟩
    · intro j
      by_cases hji : j = i
      · subst hji
        simp [concStep, hpc, hd, hni, Function.update_same]
      · simp [concStep, hpc, hd, hni, Function.update_noteq hji]
        exact hle j
  · -- pc 2: the arrayUnion update appends the fresh name
    have hni : names i ∉ l := hnotmem (by rw [hpc]; decide)
    refine ⟨by simp [concStep, hpc, hd, hcur], ⟨l ++ [names i], ?_, ?_, ?_⟩, ?_⟩
    · simp [concStep, hpc, hd, setDate, arrayUnion_of_not_mem hni]
    · simp [List.nodup_append, hnd, hni]
    · intro x
      constructor
      · intro hx
        rcases List.mem_append.1 hx with hx | hx
        · obtain ⟨j, hj3, hjx⟩ := (hiff x).1 hx
          have hji : j ≠ i := by
            rintro rfl
            rw [hpc] at hj3
            exact absurd hj3 (by decide)
          refine ⟨j, ?_, hjx⟩
          simp [concStep, hpc, hd, Function.update_noteq hji, hj3]
        · refine ⟨i, ?_, (List.mem_singleton.1 hx).symm⟩
          simp [concStep, hpc, hd, Function.update_same]
      · rintro ⟨j, hj3, hjx⟩
        by_cases hji : j = i
        · subst hji
          exact List.mem_append.2 (Or.inr (by simp [hjx]))
        · simp [concStep, hpc, hd, Function.update_noteq hji] at hj3
          exact List.mem_append.2 (Or.inl ((hiff x).2 ⟨j, hj3, hjx⟩))
    · intro j
      by_cases hji : j = i
      · subst hji
        simp [concStep, hpc, hd, Function.update_same]
      · simp [concStep, hpc, hd, Function.update_noteq hji]
        exact hle j
  · -- pc ≥ 3: the call is finished, the step is a no-op
    refine ⟨?_, ⟨l, ?_, hnd, ?_⟩, ?_⟩ <;> simp [concStep, hpc, hcur, hd, hiff, hle]

end Docere

namespace Docere

/-- The invariant of `concStep_inv` is preserved by any schedule. -/
theorem runSchedule_inv {n : Nat} (names : Fin n → String) (now : Nat) (date : String)
    (c0 : CurrentDoc) (e0 : Option Nat)
    (hinj : Function.Injective names)
    (hstat : c0.status = some "open") (hexp : expired c0.endTime now = false) :
    ∀ (sched : List (Fin n)) (s : ConcSys n),
    s.store.current = some c0 →
    (∃ l, s.store.dates date = some ⟨some "open", e0, some l⟩ ∧ l.Nodup
      ∧ ∀ x, x ∈ l ↔ ∃ j, s.pcs j = 3 ∧ names j = x) →
    (∀ j, s.pcs j ≤ 3) →
    (runSchedule names now date sched s).store.current = some c0
    ∧ (∃ l, (runSchedule names now date sched s).store.dates date
          = some ⟨some "open", e0, some l⟩ ∧ l.Nodup
      ∧ ∀ x, x ∈ l ↔ ∃ j, (runSchedule names now date sched s).pcs j = 3 ∧ names j = x)
    ∧ (∀ j, (runSchedule names now date sched s).pcs j ≤ 3) := by
  intro sched
  induction sched with
  | nil =>
    intro s h1 h2 h3
    exact ⟨h1, h2, h3⟩
  | cons i rest ih =>
    intro s h1 h2 h3
    obtain ⟨l, hd, hnd, hiff⟩ := h2
    have hstep := concStep_inv names now date c0 e0 hinj hstat hexp s i h1 l hd hnd hiff h3
    have hrun : runSchedule names now date (i :: rest) s
        = runSchedule names now date rest (concStep names now date s i) := rfl
    rw [hrun]
    exact ih (concStep names now date s i) hstep.1 hstep.2.1 hstep.2.2

/-- Claim C2: N concurrent `markPresent` calls with pairwise-distinct
non-empty trimmed names against one open, non-expired session all
succeed, and afterwards the day's roster contains exactly those N
distinct names, for every interleaving of the calls' remote operations —
no lost updates, because the roster is only mutated by the `arrayUnion`
additive write, never by a full-array overwrite. -/
theorem markPresent_concurrent_no_lost_updates
    {n : Nat} (names : Fin n → String) (now : Nat) (date : String)
    (st : Store) (c0 : CurrentDoc) (e0 : Option Nat)
    (hinj : Function.Injective names)
    (hnames : ∀ i, strTrim (names i) = names i ∧ names i ≠ "")
    (hcur : st.current = some c0)
    (hstat : c0.status = some "open") (hexp : expired c0.endTime now = false)
    (hd : st.dates date = some ⟨some "open", e0, some []⟩)
    (sched : List (Fin n))
    (hdone : ∀ i, 3 ≤ (runSchedule names now date sched ⟨st, fun _ => 0⟩).pcs i) :
    (∀ i, (runSchedule names now date sched ⟨st, fun _ => 0⟩).pcs i = 3)
    ∧ (runSchedule names now date sched ⟨st, fun _ => 0⟩).store.dates date
        = some ⟨some "open", e0, some (rosterOf (runSchedule names now date sched ⟨st, fun _ => 0⟩).store date)⟩
    ∧ (rosterOf (runSchedule names now date sched ⟨st, fun _ => 0⟩).store date).Nodup
    ∧ (rosterOf (runSchedule names now date sched ⟨st, fun _ => 0⟩).store date).toFinset
        = Finset.image names Finset.univ := by
  have hinv := runSchedule_inv names now date c0 e0 hinj hstat hexp sched
    ⟨st, fun _ => 0⟩ hcur ⟨[], hd, List.nodup_nil, by simp⟩ (fun j => by simp)
  obtain ⟨hc, ⟨l, hdl, hnd, hiff⟩, hle⟩ := hinv
  have hall : ∀ i, (runSchedule names now date sched ⟨st, fun _ => 0⟩).pcs i = 3 :=
    fun i => Nat.le_antisymm (hle i) (hdone i)
  have hros : rosterOf (runSchedule names now date sched ⟨st, fun _ => 0⟩).store date = l := by
    simp [rosterOf, hdl]
  refine ⟨hall, ?_, ?_, ?_⟩
  · rw [hros]; exact hdl
  · rw [hros]; exact hnd
  · rw [hros]
    ext x
    simp only [List.mem_toFinset, Finset.mem_image, Finset.mem_univ, true_and]
    rw [hiff x]
    constructor
    · rintro ⟨j, _, hjx⟩
      exact ⟨j, hjx⟩
    · rintro ⟨j, hjx⟩
      exact ⟨j, hall j, hjx⟩

end Docere

namespace Docere

theorem markPresent_concurrent_no_lost_updates_witness :
    (∀ i, (runSchedule exNames 500 "2024-05-01" [0, 1, 0, 1, 0, 1]
        ⟨exStore, fun _ => 0⟩).pcs i = 3)
    ∧ (rosterOf (runSchedule exNames 500 "2024-05-01" [0, 1, 0, 1, 0, 1]
        ⟨exStore, fun _ => 0⟩).store "2024-05-01").toFinset
        = Finset.image exNames Finset.univ :=
  have h := markPresent_concurrent_no_lost_updates exNames 500 "2024-05-01" exStore
    ⟨"2024-05-01", some "open", some 1000⟩ (some 1000) (by decide) (by decide)
    rfl rfl (by decide) (by decide) [0, 1, 0, 1, 0, 1] (by decide)
  ⟨h.1, h.2.2.2⟩

end Docere
